import Mathlib

/-!
Verification of the session registry and request router of the MCP
streamable-HTTP example server (src/unnamed/part_000), together with the
tool descriptor it registers and the current-time tool it exposes.

The server keeps an in-memory object
`transports` mapping session-id strings to transport objects.
Transport instances are modelled by a natural-number identity (`Nat`), so
that dispatching "to the same instance" is expressed as equality of these
identities.  The registry is an association list with the update and
delete semantics of a plain JavaScript object: assignment replaces the
value of an existing key in place, `delete` removes the key.

JavaScript truthiness matters for the router: the header value is a
string or `undefined`, and both `undefined` and the empty string are
falsy.  The header is therefore embedded as `Option String` and the
conditions `if (sessionId && transports[sessionId])`,
`else if (!sessionId && isInitializeRequest(req.body))` and
`if (!sessionId || !transports[sessionId])` are translated through the
`truthy` predicate below.
-/

/-- The session registry `transports`: session id to transport identity. -/
abbrev Registry := List (String × Nat)

/-- Reading `transports[id]`: first binding of the key, if any. -/
def regLookup : Registry → String → Option Nat
  | [], _ => none
  | (k, v) :: rest, id => if k = id then some v else regLookup rest id

/-- The assignment `transports[id] = h` of a JavaScript object: replaces
the value of an existing key in place, otherwise appends the binding. -/
def regSet : Registry → String → Nat → Registry
  | [], id, h => [(id, h)]
  | (k, v) :: rest, id, h =>
    if k = id then (id, h) :: rest else (k, v) :: regSet rest id h

/-- The statement `delete transports[id]`: removes the key. -/
def regDelete : Registry → String → Registry
  | [], _ => []
  | (k, v) :: rest, id =>
    if k = id then regDelete rest id else (k, v) :: regDelete rest id

/-- JavaScript truthiness of the `mcp-session-id` header value:
`undefined` (absent header) and the empty string are falsy. -/
def truthy : Option String → Bool
  | none => false
  | some s => !(s == "")

/-- The string value of the header, defaulting to the empty string; only
consulted on branches where the header is truthy. -/
def headerVal (h : Option String) : String := h.getD ""

/-- The `error` member of the fixed JSON-RPC error body. -/
structure ErrObject where
  code : Int
  message : String
deriving DecidableEq

/-- The JSON-RPC error body sent by the POST handler; `idNull` records
that the `id` member is the JSON literal `null`. -/
structure ErrBody where
  jsonrpc : String
  error : ErrObject
  idNull : Bool
deriving DecidableEq

/-- The fixed body of src/unnamed/part_000 lines 53-57. -/
def noValidSessionBody : ErrBody :=
  { jsonrpc := "2.0"
    error := { code := -32000, message := "Bad Request: No valid session ID provided" }
    idNull := true }

/-- Outcome of one request, as observable at the HTTP layer: delegation
to `transport.handleRequest` of the transport with the given identity, a
JSON error response, or a plain-text error response. -/
inductive Response where
  | handled (h : Nat)
  | jsonError (status : Nat) (body : ErrBody)
  | textError (status : Nat) (msg : String)
deriving DecidableEq

/-- The POST `/mcp` handler, src/unnamed/part_000 lines 20-62.

`header` is the `mcp-session-id` header (absent or its string value),
`isInit` the value of `isInitializeRequest(req.body)`.  `newSid` stands
for the output of the `randomUUID()` session-id generator and `newH` for
the identity of the freshly constructed transport; both are only
consulted on the creation branch.  On that branch the SDK initialises
the session while handling the request and invokes
`onsessioninitialized`, which performs `transports[sid] = transport`,
embedded here as `regSet`.  Returns the registry after the request and
the response. -/
def postMcp (reg : Registry) (header : Option String) (isInit : Bool)
    (newSid : String) (newH : Nat) : Registry × Response :=
  if truthy header && (regLookup reg (headerVal header)).isSome then
    (reg, Response.handled ((regLookup reg (headerVal header)).getD 0))
  else if !truthy header && isInit then
    (regSet reg newSid newH, Response.handled newH)
  else
    (reg, Response.jsonError 400 noValidSessionBody)

/-- The shared GET/DELETE handler `handleSessionRequest`,
src/unnamed/part_000 lines 64-72.  Never modifies the registry. -/
def handleSessionRequest (reg : Registry) (header : Option String) :
    Registry × Response :=
  if !truthy header || (regLookup reg (headerVal header)).isNone then
    (reg, Response.textError 400 "Invalid or missing session ID")
  else
    (reg, Response.handled ((regLookup reg (headerVal header)).getD 0))

/-- `app.get('/mcp', handleSessionRequest)`, line 74. -/
def appGetMcp : Registry → Option String → Registry × Response :=
  handleSessionRequest

/-- `app.delete('/mcp', handleSessionRequest)`, line 75. -/
def appDeleteMcp : Registry → Option String → Registry × Response :=
  handleSessionRequest

/-- A transport object: its identity and the session id the SDK assigned
to it (none before initialisation). -/
structure Transport where
  handle : Nat
  sessionId : Option String
deriving DecidableEq

/-- The transport constructed on the creation branch, after the SDK has
initialised its session with the generated id. -/
def createdTransport (newSid : String) (newH : Nat) : Transport :=
  { handle := newH, sessionId := some newSid }

/-- The `transport.onclose` callback attached at creation,
src/unnamed/part_000 lines 36-40: if `transport.sessionId` is truthy,
delete its registry entry. -/
def transportOnclose (reg : Registry) (t : Transport) : Registry :=
  if truthy t.sessionId then regDelete reg (headerVal t.sessionId) else reg

/-- A tool descriptor as passed to `server.tool` on lines 44-49: name,
description and the list of parameter names (the schema passed on line 47
is empty). -/
structure ToolDescriptor where
  name : String
  descr : String
  params : List String
deriving DecidableEq

/-- The single tool registered on every freshly constructed `McpServer`. -/
def getCurrentTimeTool : ToolDescriptor :=
  { name := "get_current_time"
    descr := "Return current server time as ISO 8601 string."
    params := [] }

/-- The full list of `server.tool` registrations performed on one
`McpServer` instance: exactly one, lines 44-49. -/
def registeredTools : List ToolDescriptor := [getCurrentTimeTool]

/-- One `McpServer` instance created on the creation branch: the identity
of its transport and the tools registered on it. -/
structure ServerInstance where
  handle : Nat
  tools : List ToolDescriptor
deriving DecidableEq

/-- Process-level state: the registry, the servers constructed so far,
and the running count of `server.tool` invocations performed since
process startup. -/
structure ProcState where
  reg : Registry
  servers : List ServerInstance
  toolRegCount : Nat
deriving DecidableEq

/-- The state right after process startup: module-level code registers no
tools and creates no servers; only the empty `transports` object exists. -/
def startupState : ProcState :=
  { reg := [], servers := [], toolRegCount := 0 }

/-- The creation branch of the POST handler is taken exactly when the
header is falsy and the body is a valid initialize request. -/
def isCreateStep (header : Option String) (isInit : Bool) : Bool :=
  !truthy header && isInit

/-- One POST request at process level: runs `postMcp` and, on the
creation branch, records the new `McpServer` with its tool registrations
(lines 42-51 run once per created session). -/
def procPost (s : ProcState) (header : Option String) (isInit : Bool)
    (newSid : String) (newH : Nat) : ProcState × Response :=
  if isCreateStep header isInit then
    ({ reg := (postMcp s.reg header isInit newSid newH).1
       servers := { handle := newH, tools := registeredTools } :: s.servers
       toolRegCount := s.toolRegCount + 1 },
     (postMcp s.reg header isInit newSid newH).2)
  else
    ({ reg := (postMcp s.reg header isInit newSid newH).1
       servers := s.servers
       toolRegCount := s.toolRegCount },
     (postMcp s.reg header isInit newSid newH).2)

/-!
The current-time tool.  The handler on line 48 returns
`getCurrentTime()` imported from `./tools_local.js`, a file that is not
part of the source tree; section 4.3 of the design describes its
contract.  The wall clock is therefore embedded explicitly: a reading of
the clock is a calendar date-time, and the tool renders the reading it
observes at the moment of the call.
-/

/-- A wall-clock reading: a UTC calendar date-time with milliseconds. -/
structure DateTime where
  year : Nat
  month : Nat
  day : Nat
  hour : Nat
  minute : Nat
  second : Nat
  millis : Nat
deriving DecidableEq

/-- Field bounds of a clock reading delivered by the system clock. -/
def DateTime.valid (d : DateTime) : Bool :=
  decide (1 ≤ d.year) && decide (d.year ≤ 9999) &&
  decide (1 ≤ d.month) && decide (d.month ≤ 12) &&
  decide (1 ≤ d.day) && decide (d.day ≤ 31) &&
  decide (d.hour ≤ 23) && decide (d.minute ≤ 59) &&
  decide (d.second ≤ 59) && decide (d.millis ≤ 999)

/-- The fields of a reading, most significant first. -/
def dtFields (d : DateTime) : List Nat :=
  [d.year, d.month, d.day, d.hour, d.minute, d.second, d.millis]

/-- Lexicographic comparison of equal-length lists of naturals. -/
def natLexLe : List Nat → List Nat → Bool
  | [], _ => true
  | _ :: _, [] => false
  | a :: as, b :: bs =>
    if a < b then true else if b < a then false else natLexLe as bs

/-- Chronological order of clock readings: lexicographic on the fields. -/
def DateTime.le (d1 d2 : DateTime) : Bool :=
  natLexLe (dtFields d1) (dtFields d2)

/-- The decimal digit character of `n % 10`. -/
def digitChar (n : Nat) : Char := Char.ofNat (48 + n % 10)

/-- `n` rendered in decimal, zero-padded to exactly `k` characters
(most significant digit first; faithful for `n < 10 ^ k`). -/
def padNum : Nat → Nat → List Char
  | 0, _ => []
  | k + 1, n => padNum k (n / 10) ++ [digitChar n]

/-- Renders a list of fields, each given as width, value and the literal
separator that follows it. -/
def renderFields : List (Nat × Nat × List Char) → List Char
  | [] => []
  | (w, v, sep) :: rest => padNum w v ++ sep ++ renderFields rest

/-- The fields of the fixed ISO-8601 UTC layout
`YYYY-MM-DDTHH:MM:SS.mmmZ` for a given reading. -/
def isoFields (d : DateTime) : List (Nat × Nat × List Char) :=
  [(4, d.year, ['-']), (2, d.month, ['-']), (2, d.day, ['T']),
   (2, d.hour, [':']), (2, d.minute, [':']), (2, d.second, ['.']),
   (3, d.millis, ['Z'])]

/-- A reading rendered in the fixed ISO-8601 UTC layout. -/
def isoFormat (d : DateTime) : String :=
  String.mk (renderFields (isoFields d))

/-- Modelled from the spec: `getCurrentTime` of `./tools_local.js` is
imported on line 8 and used by the tool handler on line 48, but the file
is absent from the source tree.  Section 4.3: no input parameters,
returns the current wall-clock timestamp as a fixed-format string, no
failure modes.  The clock reading observed at the call is the argument;
the result is that reading rendered in the fixed ISO-8601 UTC layout. -/
def getCurrentTime (now : DateTime) : String := isoFormat now

/-- The payload produced by the tool handler on line 48: a single text
content item carrying the rendered timestamp. -/
def toolHandlerResult (now : DateTime) : List (String × String) :=
  [("text", getCurrentTime now)]

/-- Strict lexicographic order on character lists, by code point. -/
def charLexLt : List Char → List Char → Bool
  | [], [] => false
  | [], _ :: _ => true
  | _ :: _, [] => false
  | a :: as, b :: bs =>
    if a.toNat < b.toNat then true
    else if b.toNat < a.toNat then false
    else charLexLt as bs

/-- Lexicographic order on character lists, by code point. -/
def charLexLe : List Char → List Char → Bool
  | [], _ => true
  | _ :: _, [] => false
  | a :: as, b :: bs =>
    if a.toNat < b.toNat then true
    else if b.toNat < a.toNat then false
    else charLexLe as bs

/-- Dictionary order on strings, by code point. -/
def strLe (s t : String) : Bool := charLexLe s.data t.data

/-- Decimal digit test on a character. -/
def isDigit (c : Char) : Bool := decide (48 ≤ c.toNat) && decide (c.toNat ≤ 57)

/-- Shape check for the fixed ISO-8601 UTC layout
`YYYY-MM-DDTHH:MM:SS.mmmZ`: 24 characters, digits and literal
separators in the exact positions. -/
def isIso8601UTC (s : String) : Bool :=
  match s.data with
  | [y1, y2, y3, y4, s1, mo1, mo2, s2, d1, d2, s3, h1, h2, s4,
     mi1, mi2, s5, se1, se2, s6, ms1, ms2, ms3, s7] =>
    isDigit y1 && isDigit y2 && isDigit y3 && isDigit y4 &&
    (s1 == '-') && isDigit mo1 && isDigit mo2 &&
    (s2 == '-') && isDigit d1 && isDigit d2 &&
    (s3 == 'T') && isDigit h1 && isDigit h2 &&
    (s4 == ':') && isDigit mi1 && isDigit mi2 &&
    (s5 == ':') && isDigit se1 && isDigit se2 &&
    (s6 == '.') && isDigit ms1 && isDigit ms2 && isDigit ms3 &&
    (s7 == 'Z')
  | _ => false

/-- Pointwise comparison of two rendered field lists: identical tails,
or a strict drop at the head field with identical width and separator,
or an identical head field above a comparable tail. -/
inductive FieldsLe : List (Nat × Nat × List Char) → List (Nat × Nat × List Char) → Prop
  | refl (L : List (Nat × Nat × List Char)) : FieldsLe L L
  | lt {w v1 v2 : Nat} {sep : List Char}
      (L1 L2 : List (Nat × Nat × List Char)) :
      v1 < v2 → v2 < 10 ^ w →
      FieldsLe ((w, v1, sep) :: L1) ((w, v2, sep) :: L2)
  | eq {w v : Nat} {sep : List Char} {L1 L2 : List (Nat × Nat × List Char)} :
      FieldsLe L1 L2 →
      FieldsLe ((w, v, sep) :: L1) ((w, v, sep) :: L2)

/-! Registry lemmas. -/

theorem regLookup_regSet_self (reg : Registry) (id : String) (h : Nat) :
    regLookup (regSet reg id h) id = some h := by
  induction reg with
  | nil => simp [regSet, regLookup]
  | cons p rest ih =>
    obtain ⟨k, v⟩ := p
    by_cases hk : k = id
    · simp [regSet, hk, regLookup]
    · simp [regSet, hk, regLookup, ih]

theorem regLookup_regSet_other (reg : Registry) (id k : String) (h : Nat)
    (hne : k ≠ id) : regLookup (regSet reg id h) k = regLookup reg k := by
  induction reg with
  | nil => simp [regSet, regLookup, Ne.symm hne]
  | cons p rest ih =>
    obtain ⟨k0, v0⟩ := p
    by_cases hk : k0 = id
    · subst hk
      simp [regSet, regLookup, Ne.symm hne]
    · simp [regSet, hk, regLookup, ih]

theorem regLookup_regDelete_self (reg : Registry) (id : String) :
    regLookup (regDelete reg id) id = none := by
  induction reg with
  | nil => simp [regDelete, regLookup]
  | cons p rest ih =>
    obtain ⟨k, v⟩ := p
    by_cases hk : k = id
    · simp [regDelete, hk, ih]
    · simp [regDelete, hk, regLookup, ih]

/-! Lexicographic machinery for the ISO-8601 layout. -/

theorem padNum_length (k : Nat) : ∀ n : Nat, (padNum k n).length = k := by
  induction k with
  | zero => intro n; rfl
  | succ k ih => intro n; simp [padNum, ih]

theorem digitChar_toNat (n : Nat) : (digitChar n).toNat = 48 + n % 10 := by
  have hlt : n % 10 < 10 := Nat.mod_lt _ (by omega)
  unfold digitChar
  generalize n % 10 = r at hlt ⊢
  interval_cases r <;> decide

theorem isDigit_digitChar (n : Nat) : isDigit (digitChar n) = true := by
  have hlt : n % 10 < 10 := Nat.mod_lt _ (by omega)
  simp only [isDigit, digitChar_toNat, Bool.and_eq_true, decide_eq_true_eq]
  omega

theorem charLexLe_refl (l : List Char) : charLexLe l l = true := by
  induction l with
  | nil => rfl
  | cons a as ih => simp [charLexLe, ih]

theorem charLexLe_of_lt (l1 : List Char) : ∀ l2, charLexLt l1 l2 = true →
    charLexLe l1 l2 = true := by
  induction l1 with
  | nil => intro l2 _; cases l2 <;> rfl
  | cons a as ih =>
    intro l2 h
    cases l2 with
    | nil => simp [charLexLt] at h
    | cons b bs =>
      by_cases hab : a.toNat < b.toNat
      · simp [charLexLe, hab]
      · by_cases hba : b.toNat < a.toNat
        · simp [charLexLt, hab, hba] at h
        · simp only [charLexLt, if_neg hab, if_neg hba] at h
          simp only [charLexLe, if_neg hab, if_neg hba]
          exact ih bs h

theorem charLexLt_append_of_lt (l1 : List Char) : ∀ l2 xs ys : List Char,
    l1.length = l2.length → charLexLt l1 l2 = true →
    charLexLt (l1 ++ xs) (l2 ++ ys) = true := by
  induction l1 with
  | nil =>
    intro l2 xs ys hlen h
    cases l2 with
    | nil => simp [charLexLt] at h
    | cons b bs => simp at hlen
  | cons a as ih =>
    intro l2 xs ys hlen h
    cases l2 with
    | nil => simp at hlen
    | cons b bs =>
      simp only [List.length_cons, Nat.add_right_cancel_iff] at hlen
      by_cases hab : a.toNat < b.toNat
      · simp [charLexLt, hab]
      · by_cases hba : b.toNat < a.toNat
        · simp [charLexLt, hab, hba] at h
        · simp only [charLexLt, if_neg hab, if_neg hba] at h
          simp only [List.cons_append, charLexLt, if_neg hab, if_neg hba]
          exact ih bs xs ys hlen h

theorem charLexLe_append_left (s : List Char) : ∀ xs ys : List Char,
    charLexLe (s ++ xs) (s ++ ys) = charLexLe xs ys := by
  induction s with
  | nil => intro xs ys; rfl
  | cons a as ih =>
    intro xs ys
    simp only [List.cons_append, charLexLe, if_neg (Nat.lt_irrefl a.toNat)]
    exact ih xs ys

theorem charLexLt_append_left (s : List Char) : ∀ xs ys : List Char,
    charLexLt (s ++ xs) (s ++ ys) = charLexLt xs ys := by
  induction s with
  | nil => intro xs ys; rfl
  | cons a as ih =>
    intro xs ys
    simp only [List.cons_append, charLexLt, if_neg (Nat.lt_irrefl a.toNat)]
    exact ih xs ys

theorem padNum_lt_mono (k : Nat) : ∀ m n : Nat, m < n → n < 10 ^ k →
    charLexLt (padNum k m) (padNum k n) = true := by
  induction k with
  | zero =>
    intro m n hmn hn
    rw [pow_zero] at hn
    omega
  | succ k ih =>
    intro m n hmn hn
    have hdiv : m / 10 ≤ n / 10 := Nat.div_le_div_right (Nat.le_of_lt hmn)
    have hn' : n / 10 < 10 ^ k := by
      rw [pow_succ] at hn
      omega
    rcases Nat.lt_or_ge (m / 10) (n / 10) with hc | hc
    · have hlt := ih (m / 10) (n / 10) hc hn'
      have hlen : (padNum k (m / 10)).length = (padNum k (n / 10)).length := by
        rw [padNum_length, padNum_length]
      simpa [padNum] using
        charLexLt_append_of_lt _ _ [digitChar m] [digitChar n] hlen hlt
    · have heq : m / 10 = n / 10 := Nat.le_antisymm hdiv hc
      have hmod : m % 10 < n % 10 := by omega
      simp only [padNum, heq]
      rw [charLexLt_append_left]
      simp only [charLexLt, digitChar_toNat]
      rw [if_pos (by omega)]

theorem renderFields_mono {L1 L2 : List (Nat × Nat × List Char)}
    (h : FieldsLe L1 L2) :
    charLexLe (renderFields L1) (renderFields L2) = true := by
  induction h with
  | refl L => exact charLexLe_refl _
  | lt L1 L2 hv hb =>
    apply charLexLe_of_lt
    simp only [renderFields]
    apply charLexLt_append_of_lt
    · simp [padNum_length]
    · exact charLexLt_append_of_lt _ _ _ _
        (by rw [padNum_length, padNum_length]) (padNum_lt_mono _ _ _ hv hb)
  | eq h ih =>
    simp only [renderFields]
    rw [charLexLe_append_left]
    exact ih

theorem natLexLe_cons (a b : Nat) (as bs : List Nat) :
    natLexLe (a :: as) (b :: bs) = true ↔
      a < b ∨ (a = b ∧ natLexLe as bs = true) := by
  have hstep : natLexLe (a :: as) (b :: bs) =
      if a < b then true else if b < a then false else natLexLe as bs := rfl
  rw [hstep]
  split_ifs with h1 h2
  · simp [h1]
  · constructor
    · intro hcon
      exact absurd hcon (by decide)
    · intro hcon
      exfalso
      rcases hcon with hcon | ⟨hcon, _⟩ <;> omega
  · have hab : a = b := by omega
    simp [hab]

theorem isoFormat_data (d : DateTime) : (isoFormat d).data =
    [digitChar (d.year / 10 / 10 / 10), digitChar (d.year / 10 / 10),
     digitChar (d.year / 10), digitChar d.year, '-',
     digitChar (d.month / 10), digitChar d.month, '-',
     digitChar (d.day / 10), digitChar d.day, 'T',
     digitChar (d.hour / 10), digitChar d.hour, ':',
     digitChar (d.minute / 10), digitChar d.minute, ':',
     digitChar (d.second / 10), digitChar d.second, '.',
     digitChar (d.millis / 10 / 10), digitChar (d.millis / 10),
     digitChar d.millis, 'Z'] := rfl

theorem isoFormat_wellFormed (d : DateTime) :
    isIso8601UTC (isoFormat d) = true := by
  unfold isIso8601UTC
  rw [isoFormat_data]
  simp [isDigit_digitChar]

theorem fieldsLe_of_le (d1 d2 : DateTime) (_h1 : d1.valid = true)
    (h2 : d2.valid = true) (hle : DateTime.le d1 d2 = true) :
    FieldsLe (isoFields d1) (isoFields d2) := by
  unfold DateTime.valid at h2
  simp only [Bool.and_eq_true, decide_eq_true_eq] at h2
  obtain ⟨⟨⟨⟨⟨⟨⟨⟨⟨hy2a, hy2b⟩, hmo2a⟩, hmo2b⟩, hd2a⟩, hd2b⟩, hh2⟩, hmi2⟩,
    hs2⟩, hms2⟩ := h2
  unfold DateTime.le dtFields at hle
  simp only [isoFields]
  rcases (natLexLe_cons _ _ _ _).mp hle with hy | ⟨hy, hle⟩
  · exact FieldsLe.lt _ _ hy (by norm_num; omega)
  rw [hy]
  apply FieldsLe.eq
  rcases (natLexLe_cons _ _ _ _).mp hle with hmo | ⟨hmo, hle⟩
  · exact FieldsLe.lt _ _ hmo (by norm_num; omega)
  rw [hmo]
  apply FieldsLe.eq
  rcases (natLexLe_cons _ _ _ _).mp hle with hd | ⟨hd, hle⟩
  · exact FieldsLe.lt _ _ hd (by norm_num; omega)
  rw [hd]
  apply FieldsLe.eq
  rcases (natLexLe_cons _ _ _ _).mp hle with hh | ⟨hh, hle⟩
  · exact FieldsLe.lt _ _ hh (by norm_num; omega)
  rw [hh]
  apply FieldsLe.eq
  rcases (natLexLe_cons _ _ _ _).mp hle with hmi | ⟨hmi, hle⟩
  · exact FieldsLe.lt _ _ hmi (by norm_num; omega)
  rw [hmi]
  apply FieldsLe.eq
  rcases (natLexLe_cons _ _ _ _).mp hle with hs | ⟨hs, hle⟩
  · exact FieldsLe.lt _ _ hs (by norm_num; omega)
  rw [hs]
  apply FieldsLe.eq
  rcases (natLexLe_cons _ _ _ _).mp hle with hms | ⟨hms, _⟩
  · exact FieldsLe.lt _ _ hms (by norm_num; omega)
  rw [hms]
  exact FieldsLe.refl _

theorem isoFormat_mono (d1 d2 : DateTime) (h1 : d1.valid = true)
    (h2 : d2.valid = true) (hle : DateTime.le d1 d2 = true) :
    strLe (isoFormat d1) (isoFormat d2) = true := by
  show charLexLe (renderFields (isoFields d1)) (renderFields (isoFields d2)) = true
  exact renderFields_mono (fieldsLe_of_le d1 d2 h1 h2 hle)

/-! Branch lemmas for the POST handler. -/

theorem truthy_some (s : String) (hs : s ≠ "") : truthy (some s) = true := by
  simp [truthy, hs]

theorem postMcp_known (reg : Registry) (sid : String) (h : Nat) (hs : sid ≠ "")
    (hl : regLookup reg sid = some h) (isInit : Bool) (newSid : String)
    (newH : Nat) :
    postMcp reg (some sid) isInit newSid newH = (reg, Response.handled h) := by
  unfold postMcp
  rw [if_pos]
  · simp [headerVal, hl]
  · simp [truthy_some sid hs, headerVal, hl]

theorem postMcp_unknown (reg : Registry) (sid : String) (hs : sid ≠ "")
    (hl : regLookup reg sid = none) (isInit : Bool) (newSid : String)
    (newH : Nat) :
    postMcp reg (some sid) isInit newSid newH =
      (reg, Response.jsonError 400 noValidSessionBody) := by
  unfold postMcp
  rw [if_neg, if_neg]
  · simp [truthy_some sid hs]
  · simp [headerVal, hl]

theorem postMcp_create (reg : Registry) (header : Option String)
    (ht : truthy header = false) (newSid : String) (newH : Nat) :
    postMcp reg header true newSid newH =
      (regSet reg newSid newH, Response.handled newH) := by
  unfold postMcp
  rw [if_neg, if_pos]
  · simp [ht]
  · simp [ht]

theorem postMcp_reject (reg : Registry) (header : Option String)
    (ht : truthy header = false) (newSid : String) (newH : Nat) :
    postMcp reg header false newSid newH =
      (reg, Response.jsonError 400 noValidSessionBody) := by
  unfold postMcp
  rw [if_neg, if_neg]
  · simp
  · simp [ht]

theorem handleSessionRequest_known (reg : Registry) (sid : String) (h : Nat)
    (hs : sid ≠ "") (hl : regLookup reg sid = some h) :
    handleSessionRequest reg (some sid) = (reg, Response.handled h) := by
  unfold handleSessionRequest
  rw [if_neg]
  · simp [headerVal, hl]
  · simp [truthy_some sid hs, headerVal, hl]

theorem handleSessionRequest_unknown (reg : Registry) (header : Option String)
    (hcond : truthy header = false ∨ regLookup reg (headerVal header) = none) :
    handleSessionRequest reg header =
      (reg, Response.textError 400 "Invalid or missing session ID") := by
  unfold handleSessionRequest
  rcases hcond with hc | hc
  · rw [if_pos (by simp [hc])]
  · rw [if_pos (by simp [hc])]

theorem handleSessionRequest_fst (reg : Registry) (header : Option String) :
    (handleSessionRequest reg header).1 = reg := by
  unfold handleSessionRequest
  split <;> rfl

/-! Claim theorems. -/

/-- Claim C1: every POST, GET or DELETE request whose mcp-session-id header
equals an identifier currently present in the session registry is dispatched
to exactly the transport instance registered for that identifier, and the
registry is unchanged by the dispatch.  The hypothesis that the identifier
is non-empty reflects that identifiers stored in the registry are outputs of
randomUUID, which are never the empty string. -/
theorem claim_router_dispatches_registered_handle (reg : Registry)
    (sid : String) (h : Nat) (hs : sid ≠ "") (hl : regLookup reg sid = some h)
    (isInit : Bool) (newSid : String) (newH : Nat) :
    postMcp reg (some sid) isInit newSid newH = (reg, Response.handled h) ∧
    appGetMcp reg (some sid) = (reg, Response.handled h) ∧
    appDeleteMcp reg (some sid) = (reg, Response.handled h) :=
  ⟨postMcp_known reg sid h hs hl isInit newSid newH,
   handleSessionRequest_known reg sid h hs hl,
   handleSessionRequest_known reg sid h hs hl⟩

/-- Concrete run of the C1 theorem on a one-entry registry. -/
theorem claim_router_dispatches_registered_handle_check :
    ("sid-a" : String) ≠ "" ∧
    regLookup [("sid-a", 7)] "sid-a" = some 7 ∧
    (postMcp [("sid-a", 7)] (some "sid-a") false "n" 9 =
        ([("sid-a", 7)], Response.handled 7) ∧
      appGetMcp [("sid-a", 7)] (some "sid-a") =
        ([("sid-a", 7)], Response.handled 7) ∧
      appDeleteMcp [("sid-a", 7)] (some "sid-a") =
        ([("sid-a", 7)], Response.handled 7)) :=
  ⟨by decide, by decide,
    claim_router_dispatches_registered_handle [("sid-a", 7)] "sid-a" 7
      (by decide) (by decide) false "n" 9⟩

/-- Claim C2: every POST whose session header is falsy (absent, or the empty
string, which JavaScript treats the same way) and whose body is not a valid
initialize request is answered with HTTP status 400 and exactly the fixed
JSON-RPC error body. -/
theorem claim_post_no_session_not_init_fixed_error (reg : Registry)
    (header : Option String) (ht : truthy header = false)
    (newSid : String) (newH : Nat) :
    postMcp reg header false newSid newH =
      (reg, Response.jsonError 400 noValidSessionBody) ∧
    noValidSessionBody =
      { jsonrpc := "2.0"
        error := { code := -32000
                   message := "Bad Request: No valid session ID provided" }
        idNull := true } :=
  ⟨postMcp_reject reg header ht newSid newH, rfl⟩

/-- Concrete run of the C2 theorem with an absent header. -/
theorem claim_post_no_session_not_init_fixed_error_check :
    truthy none = false ∧
    (postMcp [("sid-a", 7)] none false "n" 9 =
        ([("sid-a", 7)], Response.jsonError 400 noValidSessionBody) ∧
      noValidSessionBody =
        { jsonrpc := "2.0"
          error := { code := -32000
                     message := "Bad Request: No valid session ID provided" }
          idNull := true }) :=
  ⟨by decide,
    claim_post_no_session_not_init_fixed_error [("sid-a", 7)] none
      (by decide) "n" 9⟩

/-- Claim C3: a session is created only by a request with falsy session
header and a well-formed initialize body: the registry changes only on such
requests; when they occur, the identifier minted by the generator is
registered for the fresh transport; the close callback attached to the
created transport removes exactly that registry entry; and the GET/DELETE
handler never adds an entry.  The hypothesis that the minted identifier is
non-empty reflects that randomUUID never returns the empty string. -/
theorem claim_session_created_only_on_init_request (reg : Registry)
    (header : Option String) (isInit : Bool) (newSid : String) (newH : Nat)
    (hsid : newSid ≠ "") :
    ((postMcp reg header isInit newSid newH).1 ≠ reg →
      truthy header = false ∧ isInit = true) ∧
    (truthy header = false → isInit = true →
      postMcp reg header isInit newSid newH =
        (regSet reg newSid newH, Response.handled newH)) ∧
    (∀ r : Registry,
      transportOnclose r (createdTransport newSid newH) = regDelete r newSid) ∧
    (handleSessionRequest reg header).1 = reg := by
  refine ⟨?_, ?_, ?_, handleSessionRequest_fst reg header⟩
  · intro hne
    by_cases ht : truthy header = true
    · exfalso
      apply hne
      unfold postMcp
      by_cases hl : (regLookup reg (headerVal header)).isSome = true
      · rw [if_pos (by simp [ht, hl])]
      · rw [if_neg (by simp [hl]), if_neg (by simp [ht])]
    · have ht' : truthy header = false := by simpa using ht
      cases hi : isInit with
      | false =>
        exfalso
        apply hne
        rw [hi, postMcp_reject reg header ht' newSid newH]
      | true => exact ⟨ht', rfl⟩
  · intro ht hi
    subst hi
    exact postMcp_create reg header ht newSid newH
  · intro r
    unfold transportOnclose createdTransport
    simp [truthy_some newSid hsid, headerVal]

/-- Concrete run of the C3 theorem: an initialize request with no header
registers the minted identifier, and the attached close callback removes
it again. -/
theorem claim_session_created_only_on_init_request_check :
    ("sid-b" : String) ≠ "" ∧
    (truthy none = false ∧
      postMcp [] none true "sid-b" 3 = ([("sid-b", 3)], Response.handled 3)) ∧
    transportOnclose [("sid-b", 3)] (createdTransport "sid-b" 3) =
      regDelete [("sid-b", 3)] "sid-b" :=
  ⟨by decide,
    ⟨by decide,
      (claim_session_created_only_on_init_request [] none true "sid-b" 3
        (by decide)).2.1 (by decide) rfl⟩,
    (claim_session_created_only_on_init_request [] none true "sid-b" 3
      (by decide)).2.2.1 [("sid-b", 3)]⟩

/-- Claim C4: after the close callback of a transport with session id sid
runs, sid is absent from the registry, and a subsequent POST carrying sid is
answered with the fixed 400 JSON-RPC error while a subsequent GET or DELETE
carrying sid is answered with the 400 plain-text error — never routed.  The
non-emptiness hypothesis reflects that assigned session ids are randomUUID
outputs. -/
theorem claim_closed_session_absent_and_rejected (reg : Registry)
    (sid : String) (hId : Nat) (hs : sid ≠ "") (isInit : Bool)
    (newSid : String) (newH : Nat) :
    regLookup (transportOnclose reg { handle := hId, sessionId := some sid })
        sid = none ∧
    postMcp (transportOnclose reg { handle := hId, sessionId := some sid })
        (some sid) isInit newSid newH =
      (transportOnclose reg { handle := hId, sessionId := some sid },
        Response.jsonError 400 noValidSessionBody) ∧
    appGetMcp (transportOnclose reg { handle := hId, sessionId := some sid })
        (some sid) =
      (transportOnclose reg { handle := hId, sessionId := some sid },
        Response.textError 400 "Invalid or missing session ID") ∧
    appDeleteMcp (transportOnclose reg { handle := hId, sessionId := some sid })
        (some sid) =
      (transportOnclose reg { handle := hId, sessionId := some sid },
        Response.textError 400 "Invalid or missing session ID") := by
  have hoc : transportOnclose reg { handle := hId, sessionId := some sid } =
      regDelete reg sid := by
    unfold transportOnclose
    simp [truthy_some sid hs, headerVal]
  rw [hoc]
  have hnone := regLookup_regDelete_self reg sid
  have htext := handleSessionRequest_unknown (regDelete reg sid) (some sid)
    (Or.inr (by simpa [headerVal] using hnone))
  exact ⟨hnone, postMcp_unknown _ sid hs hnone isInit newSid newH, htext, htext⟩

/-- Concrete run of the C4 theorem: closing the session removes it, and all
three verbs then reject the stale id. -/
theorem claim_closed_session_absent_and_rejected_check :
    ("sid-c" : String) ≠ "" ∧
    (regLookup
        (transportOnclose [("sid-c", 4)] { handle := 4, sessionId := some "sid-c" })
        "sid-c" = none ∧
      postMcp
          (transportOnclose [("sid-c", 4)] { handle := 4, sessionId := some "sid-c" })
          (some "sid-c") true "n" 9 =
        (transportOnclose [("sid-c", 4)] { handle := 4, sessionId := some "sid-c" },
          Response.jsonError 400 noValidSessionBody) ∧
      appGetMcp
          (transportOnclose [("sid-c", 4)] { handle := 4, sessionId := some "sid-c" })
          (some "sid-c") =
        (transportOnclose [("sid-c", 4)] { handle := 4, sessionId := some "sid-c" },
          Response.textError 400 "Invalid or missing session ID") ∧
      appDeleteMcp
          (transportOnclose [("sid-c", 4)] { handle := 4, sessionId := some "sid-c" })
          (some "sid-c") =
        (transportOnclose [("sid-c", 4)] { handle := 4, sessionId := some "sid-c" },
          Response.textError 400 "Invalid or missing session ID")) :=
  ⟨by decide,
    claim_closed_session_absent_and_rejected [("sid-c", 4)] "sid-c" 4
      (by decide) true "n" 9⟩

/-- Claim C5 counterexample: with identifier already bound to transport 1,
the registration performed by onsessioninitialized — a plain JavaScript
object assignment — replaces the mapping with transport 2 instead of
failing: afterwards the identifier maps to the new value, not the old one. -/
theorem claim_register_overwrites_cex :
    regSet [("sid-d", 1)] "sid-d" 2 = [("sid-d", 2)] ∧
    regLookup (regSet [("sid-d", 1)] "sid-d" 2) "sid-d" = some 2 ∧
    regLookup (regSet [("sid-d", 1)] "sid-d" 2) "sid-d" ≠ some 1 := by decide

/-- Claim C5 amended: register stores the mapping unconditionally — when the
identifier is already present the existing mapping is replaced, and every
other key keeps its previous binding; registration never fails. -/
theorem claim_register_stores_mapping (reg : Registry) (id : String)
    (h : Nat) :
    regLookup (regSet reg id h) id = some h ∧
    ∀ k, k ≠ id → regLookup (regSet reg id h) k = regLookup reg k :=
  ⟨regLookup_regSet_self reg id h,
    fun k hk => regLookup_regSet_other reg id k h hk⟩

/-- Concrete run of the amended C5 theorem. -/
theorem claim_register_stores_mapping_check :
    regLookup (regSet [("sid-d", 1), ("sid-e", 3)] "sid-d" 2) "sid-d" =
      some 2 ∧
    ("sid-e" : String) ≠ "sid-d" ∧
    regLookup (regSet [("sid-d", 1), ("sid-e", 3)] "sid-d" 2) "sid-e" =
      regLookup [("sid-d", 1), ("sid-e", 3)] "sid-e" :=
  ⟨(claim_register_stores_mapping [("sid-d", 1), ("sid-e", 3)] "sid-d" 2).1,
    by decide,
    (claim_register_stores_mapping [("sid-d", 1), ("sid-e", 3)] "sid-d" 2).2
      "sid-e" (by decide)⟩

/-- Claim C6: a GET or DELETE whose header is absent or names an identifier
not present in the registry gets status 400 with the plain-text body, and a
GET or DELETE naming a registered (randomUUID, hence non-empty) identifier
is passed to the registered transport. -/
theorem claim_get_delete_session_validation (reg : Registry)
    (header : Option String) :
    ((header = none ∨ ∀ s, header = some s → regLookup reg s = none) →
      appGetMcp reg header =
        (reg, Response.textError 400 "Invalid or missing session ID") ∧
      appDeleteMcp reg header =
        (reg, Response.textError 400 "Invalid or missing session ID")) ∧
    (∀ s hnd, header = some s → s ≠ "" → regLookup reg s = some hnd →
      appGetMcp reg header = (reg, Response.handled hnd) ∧
      appDeleteMcp reg header = (reg, Response.handled hnd)) := by
  constructor
  · intro hc
    have hmain : handleSessionRequest reg header =
        (reg, Response.textError 400 "Invalid or missing session ID") := by
      apply handleSessionRequest_unknown
      rcases hc with hc | hc
      · subst hc
        exact Or.inl rfl
      · cases header with
        | none => exact Or.inl rfl
        | some s =>
          right
          simpa [headerVal] using hc s rfl
    exact ⟨hmain, hmain⟩
  · intro s hnd hh hs hl
    subst hh
    have hmain := handleSessionRequest_known reg s hnd hs hl
    exact ⟨hmain, hmain⟩

/-- Concrete run of the C6 theorem: a missing header is rejected and a
registered one is dispatched. -/
theorem claim_get_delete_session_validation_check :
    (appGetMcp [("sid-f", 5)] none =
        ([("sid-f", 5)], Response.textError 400 "Invalid or missing session ID") ∧
      appDeleteMcp [("sid-f", 5)] none =
        ([("sid-f", 5)], Response.textError 400 "Invalid or missing session ID")) ∧
    ("sid-f" : String) ≠ "" ∧
    regLookup [("sid-f", 5)] "sid-f" = some 5 ∧
    (appGetMcp [("sid-f", 5)] (some "sid-f") =
        ([("sid-f", 5)], Response.handled 5) ∧
      appDeleteMcp [("sid-f", 5)] (some "sid-f") =
        ([("sid-f", 5)], Response.handled 5)) :=
  ⟨(claim_get_delete_session_validation [("sid-f", 5)] none).1 (Or.inl rfl),
    by decide, by decide,
    (claim_get_delete_session_validation [("sid-f", 5)] (some "sid-f")).2
      "sid-f" 5 rfl (by decide) (by decide)⟩

/-- Claim C7 counterexample: at process startup no tool registration has
happened at all (the module-level code only builds the express app), and a
process that serves two initialize requests performs two registrations of
the name get_current_time — one per created session server.  The name is
therefore not registered exactly once at process startup. -/
theorem claim_tool_registered_at_startup_cex :
    startupState.toolRegCount = 0 ∧
    ((procPost (procPost startupState none true "sid-g" 1).1 none true
        "sid-h" 2).1).toolRegCount = 2 := by decide

/-- Claim C7 amended: the tool name get_current_time is registered exactly
once per session creation, on the freshly constructed server of that
session, whose tool list is exactly the singleton containing it; requests
that create no session register nothing; the tools of previously created
servers are never modified; and the registered name list of a server is
duplicate-free. -/
theorem claim_tool_registered_once_per_server (s : ProcState)
    (header : Option String) (isInit : Bool) (newSid : String) (newH : Nat) :
    (isCreateStep header isInit = true →
      (procPost s header isInit newSid newH).1.toolRegCount =
          s.toolRegCount + 1 ∧
      (procPost s header isInit newSid newH).1.servers =
        { handle := newH, tools := registeredTools } :: s.servers) ∧
    (isCreateStep header isInit = false →
      (procPost s header isInit newSid newH).1.toolRegCount =
          s.toolRegCount ∧
      (procPost s header isInit newSid newH).1.servers = s.servers) ∧
    (∀ inst ∈ s.servers,
      inst ∈ (procPost s header isInit newSid newH).1.servers) ∧
    registeredTools.map ToolDescriptor.name = ["get_current_time"] ∧
    (registeredTools.map ToolDescriptor.name).Nodup := by
  refine ⟨?_, ?_, ?_, by decide, by decide⟩
  · intro hc
    unfold procPost
    rw [if_pos hc]
    exact ⟨rfl, rfl⟩
  · intro hc
    unfold procPost
    rw [if_neg (by simp [hc])]
    exact ⟨rfl, rfl⟩
  · intro inst hmem
    unfold procPost
    by_cases hc : isCreateStep header isInit = true
    · rw [if_pos hc]
      exact List.mem_cons_of_mem _ hmem
    · rw [if_neg hc]
      exact hmem

/-- Concrete run of the amended C7 theorem on an initialize request. -/
theorem claim_tool_registered_once_per_server_check :
    isCreateStep none true = true ∧
    ((procPost startupState none true "sid-g" 1).1.toolRegCount =
        startupState.toolRegCount + 1 ∧
      (procPost startupState none true "sid-g" 1).1.servers =
        { handle := 1, tools := registeredTools } :: startupState.servers) :=
  ⟨by decide,
    (claim_tool_registered_once_per_server startupState none true "sid-g"
      1).1 (by decide)⟩

/-- Claim C8 (modelled from the spec, since tools_local.js is absent from
the source tree): for two invocations of the current-time tool whose clock
readings are in-range calendar date-times and non-decreasing, both results
are strings in the fixed ISO-8601 UTC layout and the second compares
greater than or equal to the first in dictionary order on code points;
the tool descriptor declares no parameters, and the handler is total,
producing exactly one text payload. -/
theorem claim_current_time_iso_monotone (d1 d2 : DateTime)
    (h1 : d1.valid = true) (h2 : d2.valid = true)
    (hle : DateTime.le d1 d2 = true) :
    isIso8601UTC (getCurrentTime d1) = true ∧
    isIso8601UTC (getCurrentTime d2) = true ∧
    strLe (getCurrentTime d1) (getCurrentTime d2) = true ∧
    getCurrentTimeTool.params = [] ∧
    toolHandlerResult d1 = [("text", getCurrentTime d1)] :=
  ⟨isoFormat_wellFormed d1, isoFormat_wellFormed d2,
    isoFormat_mono d1 d2 h1 h2 hle, rfl, rfl⟩

/-- Concrete run of the C8 theorem on two readings five seconds apart. -/
theorem claim_current_time_iso_monotone_check :
    (DateTime.mk 2024 6 1 12 30 0 0).valid = true ∧
    (DateTime.mk 2024 6 1 12 30 5 250).valid = true ∧
    DateTime.le (DateTime.mk 2024 6 1 12 30 0 0)
      (DateTime.mk 2024 6 1 12 30 5 250) = true ∧
    (isIso8601UTC (getCurrentTime (DateTime.mk 2024 6 1 12 30 0 0)) = true ∧
      isIso8601UTC (getCurrentTime (DateTime.mk 2024 6 1 12 30 5 250)) = true ∧
      strLe (getCurrentTime (DateTime.mk 2024 6 1 12 30 0 0))
        (getCurrentTime (DateTime.mk 2024 6 1 12 30 5 250)) = true ∧
      getCurrentTimeTool.params = [] ∧
      toolHandlerResult (DateTime.mk 2024 6 1 12 30 0 0) =
        [("text", getCurrentTime (DateTime.mk 2024 6 1 12 30 0 0))]) :=
  ⟨by decide, by decide, by decide,
    claim_current_time_iso_monotone (DateTime.mk 2024 6 1 12 30 0 0)
      (DateTime.mk 2024 6 1 12 30 5 250) (by decide) (by decide) (by decide)⟩

/-- Claim C9 counterexample: a POST carrying the mcp-session-id header with
the empty-string value — a value not present in the (empty) registry — and
a well-formed initialize body is not answered with the fixed 400 error:
because the empty string is falsy in JavaScript, the handler takes the
initialize branch and creates and registers a session. -/
theorem claim_unknown_header_post_cex :
    regLookup [] "" = none ∧
    postMcp [] (some "") true "sid-i" 1 =
      ([("sid-i", 1)], Response.handled 1) ∧
    (postMcp [] (some "") true "sid-i" 1).2 ≠
      Response.jsonError 400 noValidSessionBody ∧
    (postMcp [] (some "") true "sid-i" 1).1 ≠ ([] : Registry) := by decide

/-- Claim C9 amended: for every POST carrying a session header with a
non-empty value not present in the registry, the server answers the fixed
400 JSON-RPC error and the registry is unchanged, even when the body is a
well-formed initialize request. -/
theorem claim_unknown_nonempty_header_rejected (reg : Registry)
    (sid : String) (hs : sid ≠ "") (hl : regLookup reg sid = none)
    (isInit : Bool) (newSid : String) (newH : Nat) :
    postMcp reg (some sid) isInit newSid newH =
      (reg, Response.jsonError 400 noValidSessionBody) :=
  postMcp_unknown reg sid hs hl isInit newSid newH

/-- Concrete run of the amended C9 theorem with an initialize body and a
stale id. -/
theorem claim_unknown_nonempty_header_rejected_check :
    ("sid-k" : String) ≠ "" ∧
    regLookup [("sid-j", 6)] "sid-k" = none ∧
    postMcp [("sid-j", 6)] (some "sid-k") true "n" 9 =
      ([("sid-j", 6)], Response.jsonError 400 noValidSessionBody) :=
  ⟨by decide, by decide,
    claim_unknown_nonempty_header_rejected [("sid-j", 6)] "sid-k"
      (by decide) (by decide) true "n" 9⟩

/-- Claim C10: every rejected request leaves the registry exactly as it
was: a POST answered with the JSON-RPC error body keeps the registry of the
request, and the GET/DELETE handler keeps it on every path, in particular
on its plain-text 400 path. -/
theorem claim_error_paths_preserve_registry (reg : Registry)
    (header : Option String) (isInit : Bool) (newSid : String) (newH : Nat) :
    (∀ st b, (postMcp reg header isInit newSid newH).2 =
        Response.jsonError st b →
      (postMcp reg header isInit newSid newH).1 = reg) ∧
    (∀ st m, (handleSessionRequest reg header).2 =
        Response.textError st m →
      (handleSessionRequest reg header).1 = reg) ∧
    (appGetMcp reg header).1 = reg ∧
    (appDeleteMcp reg header).1 = reg := by
  refine ⟨?_, fun st m _ => handleSessionRequest_fst reg header,
    handleSessionRequest_fst reg header, handleSessionRequest_fst reg header⟩
  intro st b hresp
  unfold postMcp at hresp ⊢
  by_cases h1 : (truthy header && (regLookup reg (headerVal header)).isSome) = true
  · rw [if_pos h1]
  · rw [if_neg h1] at hresp ⊢
    by_cases h2 : (!truthy header && isInit) = true
    · rw [if_pos h2] at hresp
      exact absurd hresp (by simp)
    · rw [if_neg h2]

/-- Concrete run of the C10 theorem on two rejected requests. -/
theorem claim_error_paths_preserve_registry_check :
    (postMcp [("sid-j", 6)] none false "n" 9).2 =
      Response.jsonError 400 noValidSessionBody ∧
    (postMcp [("sid-j", 6)] none false "n" 9).1 = [("sid-j", 6)] ∧
    (handleSessionRequest [("sid-j", 6)] none).2 =
      Response.textError 400 "Invalid or missing session ID" ∧
    (handleSessionRequest [("sid-j", 6)] none).1 = [("sid-j", 6)] :=
  ⟨by decide,
    (claim_error_paths_preserve_registry [("sid-j", 6)] none false "n" 9).1
      400 noValidSessionBody (by decide),
    by decide,
    (claim_error_paths_preserve_registry [("sid-j", 6)] none false "n" 9).2.1
      400 "Invalid or missing session ID" (by decide)⟩
